import Mathlib

/-!
Verification of the wealth-ops swing-trading core: a shallow embedding in
Lean 4 of the composite-signal classifier, the execution simulator, the
backtest engine's per-bar state machine, and the walk-forward splitter,
with theorems settling the specified behavioural properties.

Prices and indicator values are embedded as rationals (ℚ); Python's `None`
and NaN-valued scores become `Option`; Python truthiness tests on floats
(`if x:`) are embedded as `x ≠ 0` on the unwrapped value.
-/

namespace WealthOps

/-- Asset class of a profile: drives commission and funding schedules. -/
inductive AssetClass
  | EQUITY
  | COMMODITY
  | INDEX
  deriving DecidableEq, Repr

/-- One bar of the enriched series: OHLC plus the indicator columns the
engine reads (`atr_14`, `adx_14`) and the value of the `composite_signal`
column (meaningful only when the column is present in the frame). -/
structure Row where
  «open» : ℚ
  high : ℚ
  low : ℚ
  close : ℚ
  atr_14 : ℚ
  adx_14 : ℚ
  composite_signal : ℚ
  deriving DecidableEq, Repr

/-- `ExecutionSimulator.__init__`: per-share commission (EQUITY only). -/
def commission_per_share (c : AssetClass) : ℚ :=
  if c = AssetClass.EQUITY then 5/1000 else 0

/-- `ExecutionSimulator.__init__`: minimum commission (EQUITY only). -/
def min_commission (c : AssetClass) : ℚ :=
  if c = AssetClass.EQUITY then 1 else 0

/-- `ExecutionSimulator.__init__`: daily overnight funding rate
(COMMODITY only). -/
def funding_rate_daily (c : AssetClass) : ℚ :=
  if c = AssetClass.COMMODITY then 8/100000 else 0

/-- `ExecutionSimulator.calculate_trap_levels`: buy-stop and limit prices
for the next day, from the signal bar's high and ATR. -/
def calculate_trap_levels (row : Row) : ℚ × ℚ :=
  let atr := row.atr_14
  let high := row.high
  let buy_stop := high + (2/100) * atr
  let limit_price := buy_stop + (5/100) * atr
  (buy_stop, limit_price)

/-- `ExecutionSimulator.check_entry`: whether a trap order fills on the
current bar, and at what price; `none` means no fill. -/
def check_entry (current_row : Row) (buy_stop limit_price : ℚ) : Option ℚ :=
  let open_price := current_row.open
  let high_price := current_row.high
  if open_price > limit_price then none
  else if high_price < buy_stop then none
  else
    let fill_price := max open_price buy_stop
    if fill_price > limit_price then none
    else some fill_price

end WealthOps

namespace WealthOps

/-- C1 counterexample bar: open 100, high 106. -/
def c1Bar : Row :=
  { «open» := 100, high := 106, low := 99, close := 101,
    atr_14 := 0, adx_14 := 0, composite_signal := 0 }

/-- C1 scenario bar: open 100, high 105. -/
def c1BarA : Row :=
  { «open» := 100, high := 105, low := 99, close := 101,
    atr_14 := 0, adx_14 := 0, composite_signal := 0 }

/-- C1 scenario bar: open 103, high 105. -/
def c1BarB : Row :=
  { «open» := 103, high := 105, low := 99, close := 101,
    atr_14 := 0, adx_14 := 0, composite_signal := 0 }

/-- C1 (counterexample): for the pending order (buy-stop = 105,
limit = 104) and a bar with open = 100, high = 106, the bar's open does
not exceed the limit and the high is not below the buy-stop, yet
`check_entry` returns no fill rather than the claimed fill at
max(open, buy-stop) = 105: the safety branch rejects a fill price above
the limit, which the claim omits for orders with buy-stop > limit. -/
theorem C1_check_entry_counterexample :
    ¬ (100 : ℚ) > 104 ∧ ¬ (106 : ℚ) < 105 ∧
      check_entry c1Bar 105 104 = none ∧
      check_entry c1Bar 105 104 ≠ some (max (100 : ℚ) 105) := by
  refine ⟨by norm_num, by norm_num, by decide, by decide⟩

/-- C1 (amended): for every pending order whose buy-stop does not exceed
its limit — as the trap calculation always produces when ATR ≥ 0 — and
every bar: if the bar's open exceeds the limit, no fill; otherwise if the
bar's high is below the buy-stop, no fill; otherwise the fill price is
max(open, buy-stop). In particular (buy-stop 102, limit 104): a bar with
open 100, high 105 fills at 102, and one with open 103, high 105 fills
at 103. -/
theorem C1_check_entry (row : Row) (buy_stop limit_price : ℚ)
    (hbl : buy_stop ≤ limit_price) :
    (limit_price < row.open → check_entry row buy_stop limit_price = none) ∧
    (row.open ≤ limit_price → row.high < buy_stop →
      check_entry row buy_stop limit_price = none) ∧
    (row.open ≤ limit_price → buy_stop ≤ row.high →
      check_entry row buy_stop limit_price = some (max row.open buy_stop)) ∧
    (∀ r : Row, 0 ≤ r.atr_14 →
      (calculate_trap_levels r).1 ≤ (calculate_trap_levels r).2) ∧
    check_entry c1BarA 102 104 = some 102 ∧
    check_entry c1BarB 102 104 = some 103 := by
  refine ⟨?_, ?_, ?_, ?_, ?_, ?_⟩
  · intro h
    simp [check_entry, h]
  · intro ho hh
    simp only [check_entry]
    rw [if_neg (by exact not_lt.mpr ho), if_pos hh]
  · intro ho hh
    have hmax : max row.open buy_stop ≤ limit_price := max_le ho hbl
    simp only [check_entry]
    rw [if_neg (by exact not_lt.mpr ho), if_neg (by exact not_lt.mpr hh),
      if_neg (by exact not_lt.mpr hmax)]
  · intro r hr
    simp only [calculate_trap_levels]
    nlinarith
  · simp [check_entry, c1BarA]
    norm_num
  · simp [check_entry, c1BarB]
    norm_num

/-- C1 witness: the amended theorem applied to the scenario order
(buy-stop 102 ≤ limit 104) at the bar with open 100, high 105. -/
theorem C1_check_entry_witness :
    check_entry c1BarA 102 104 = some (max c1BarA.open 102) := by
  have h := C1_check_entry c1BarA 102 104 (by norm_num)
  exact h.2.2.1 (by norm_num [c1BarA]) (by norm_num [c1BarA])

/-! ## Composite signal scorer (`momentum_composite.py`) -/

/-- `SignalClassification`: the five discrete trading signals. -/
inductive SignalClassification
  | STRONG_BUY
  | BUY
  | NEUTRAL
  | SELL
  | STRONG_SELL
  deriving DecidableEq, Repr

/-- Threshold for STRONG_BUY (in standard deviations). -/
def STRONG_BUY_THRESHOLD : ℚ := 2

/-- Threshold for BUY. -/
def BUY_THRESHOLD : ℚ := 3/2

/-- Threshold for SELL. -/
def SELL_THRESHOLD : ℚ := -(3/2)

/-- Threshold for STRONG_SELL. -/
def STRONG_SELL_THRESHOLD : ℚ := -2

/-- `_classify_signal`: classify one composite score; `none` embeds a
"not-a-number" score (the `pd.isna` branch). -/
def classify_signal (score : Option ℚ) : SignalClassification :=
  match score with
  | none => SignalClassification.NEUTRAL
  | some s =>
    if s > STRONG_BUY_THRESHOLD then SignalClassification.STRONG_BUY
    else if s > BUY_THRESHOLD then SignalClassification.BUY
    else if s < STRONG_SELL_THRESHOLD then SignalClassification.STRONG_SELL
    else if s < SELL_THRESHOLD then SignalClassification.SELL
    else SignalClassification.NEUTRAL

/-- `MOMENTUM_LOOKBACK` (components.py). -/
def MOMENTUM_LOOKBACK : ℕ := 252

/-- `MOMENTUM_SKIP` (components.py). -/
def MOMENTUM_SKIP : ℕ := 21

/-- `MIN_BARS_MOMENTUM = 252 + 21` (components.py). -/
def MIN_BARS_MOMENTUM : ℕ := MOMENTUM_LOOKBACK + MOMENTUM_SKIP

/-- `TREND_SMA_PERIOD` (components.py). -/
def TREND_SMA_PERIOD : ℕ := 200

/-- `MIN_BARS = max(MIN_BARS_MOMENTUM, TREND_SMA_PERIOD)`. -/
def MIN_BARS : ℕ := max MIN_BARS_MOMENTUM TREND_SMA_PERIOD

/-- The two raise sites of `MomentumComposite._validate_input` (both
`ValueError` in the source, distinguished by message and payload): the
spec's §7 taxonomy names them `MissingColumnsError` (carrying the missing
columns) and `InsufficientDataError` (too few rows). -/
inductive ScoreError
  | MissingColumnsError (cols : List String)
  | InsufficientDataError (got : ℕ)
  deriving DecidableEq, Repr

/-- The scorer's view of a feature frame: its column names and row count
(the validation reads nothing else). -/
structure Frame where
  columns : List String
  nrows : ℕ

/-- `_validate_input`'s required column set (a Python set; embedded as the
list in construction order). -/
def required_cols (volume_features : Bool) : List String :=
  ["close", "high", "low", "rsi_14", "atr_14"] ++
    (if volume_features then ["volume_ratio"] else [])

/-- The required columns absent from the frame
(`required_cols - set(df.columns)`). -/
def missing_cols (df : Frame) (volume_features : Bool) : List String :=
  (required_cols volume_features).filter (fun c => ! df.columns.contains c)

/-- `MomentumComposite._validate_input`: missing-columns check first, then
the minimum-history check. -/
def validate_input (df : Frame) (volume_features : Bool) :
    Except ScoreError Unit :=
  let missing := missing_cols df volume_features
  if missing ≠ [] then Except.error (ScoreError.MissingColumnsError missing)
  else if df.nrows < MIN_BARS then
    Except.error (ScoreError.InsufficientDataError df.nrows)
  else Except.ok ()

/-- `WEIGHTS_WITH_VOLUME` (weights as name–value pairs). -/
def WEIGHTS_WITH_VOLUME : List (String × ℚ) :=
  [("momentum", 40/100), ("trend", 20/100), ("rsi", 15/100),
   ("volume", 10/100), ("volatility", 10/100), ("sr", 5/100)]

/-- `WEIGHTS_WITHOUT_VOLUME`: the non-volume weights renormalized by their
total. -/
def WEIGHTS_WITHOUT_VOLUME : List (String × ℚ) :=
  let non_volume := WEIGHTS_WITH_VOLUME.filter (fun kv => kv.1 ≠ "volume")
  let total := (non_volume.map Prod.snd).sum
  non_volume.map (fun kv => (kv.1, kv.2 / total))

/-- `MomentumComposite.score`: validation runs first; on success the
selected weights are applied to the component pipeline (whose per-bar
numerics are outside these claims — the payload here is the
`weights_used` part of `CompositeResult`). -/
def score (df : Frame) (volume_features : Bool) :
    Except ScoreError (List (String × ℚ)) := do
  let _ ← validate_input df volume_features
  pure (if volume_features then WEIGHTS_WITH_VOLUME else WEIGHTS_WITHOUT_VOLUME)

/-- C5: signal classification is a total deterministic function of the
composite score with exactly the claimed bands: NaN ↦ NEUTRAL,
(2, ∞) ↦ STRONG_BUY, (3/2, 2] ↦ BUY, (−∞, −2) ↦ STRONG_SELL,
[−2, −3/2) ↦ SELL, [−3/2, 3/2] ↦ NEUTRAL. -/
theorem C5_classify_signal (s : ℚ) :
    classify_signal none = SignalClassification.NEUTRAL ∧
    (classify_signal (some s) = SignalClassification.STRONG_BUY ↔ 2 < s) ∧
    (classify_signal (some s) = SignalClassification.BUY ↔
      3/2 < s ∧ s ≤ 2) ∧
    (classify_signal (some s) = SignalClassification.STRONG_SELL ↔
      s < -2) ∧
    (classify_signal (some s) = SignalClassification.SELL ↔
      -2 ≤ s ∧ s < -(3/2)) ∧
    (classify_signal (some s) = SignalClassification.NEUTRAL ↔
      -(3/2) ≤ s ∧ s ≤ 3/2) := by
  refine ⟨rfl, ?_, ?_, ?_, ?_, ?_⟩ <;>
    · simp only [classify_signal, STRONG_BUY_THRESHOLD, BUY_THRESHOLD,
        STRONG_SELL_THRESHOLD, SELL_THRESHOLD]
      split_ifs with h1 h2 h3 h4 <;>
        simp only [reduceCtorEq, false_iff, true_iff, eq_self_iff_true,
          not_and, not_lt, not_le] <;>
        first
          | (constructor <;> linarith)
          | linarith
          | (intro hc; linarith)

/-- Evaluation of `score` when a required column is missing. -/
theorem score_err_missing (df : Frame) (vf : Bool)
    (hm : missing_cols df vf ≠ []) :
    score df vf =
      Except.error (ScoreError.MissingColumnsError (missing_cols df vf)) := by
  simp only [score, validate_input, bind, Except.bind]
  rw [if_pos hm]

/-- Evaluation of `score` on a short frame with all columns present. -/
theorem score_err_short (df : Frame) (vf : Bool)
    (hm : missing_cols df vf = []) (hn : df.nrows < MIN_BARS) :
    score df vf =
      Except.error (ScoreError.InsufficientDataError df.nrows) := by
  simp only [score, validate_input, bind, Except.bind]
  rw [if_neg (by simp [hm]), if_pos hn]

/-- Evaluation of `score` on a valid frame: validation passes and the
weights payload is produced. -/
theorem score_ok (df : Frame) (vf : Bool)
    (hm : missing_cols df vf = []) (hn : ¬ df.nrows < MIN_BARS) :
    score df vf = Except.ok
      (if vf then WEIGHTS_WITH_VOLUME else WEIGHTS_WITHOUT_VOLUME) := by
  simp only [score, validate_input, bind, Except.bind]
  rw [if_neg (by simp [hm]), if_neg hn]
  rfl

/-- C6: the scorer errors if and only if a required column is missing
(close, high, low, rsi_14, atr_14, plus volume_ratio when volume features
are enabled) or the frame has fewer than MIN_BARS = 273 rows; a missing
column yields the missing-columns error naming exactly the absent
required columns, and an otherwise-valid short frame yields the
insufficient-data error; validation precedes any component computation,
so no weights payload is produced in either case. -/
theorem C6_score_validation (columns : List String) (nrows : ℕ)
    (vf : Bool) :
    ((∃ e, score ⟨columns, nrows⟩ vf = Except.error e) ↔
      missing_cols ⟨columns, nrows⟩ vf ≠ [] ∨ nrows < 273) ∧
    (missing_cols ⟨columns, nrows⟩ vf ≠ [] →
      score ⟨columns, nrows⟩ vf = Except.error
        (ScoreError.MissingColumnsError (missing_cols ⟨columns, nrows⟩ vf))) ∧
    (missing_cols ⟨columns, nrows⟩ vf = [] → nrows < 273 →
      score ⟨columns, nrows⟩ vf = Except.error
        (ScoreError.InsufficientDataError nrows)) ∧
    MIN_BARS = 273 := by
  have hmb : MIN_BARS = 273 := by decide
  refine ⟨?_, ?_, ?_, hmb⟩
  · constructor
    · rintro ⟨e, he⟩
      by_contra hcon
      push_neg at hcon
      obtain ⟨hm, hn⟩ := hcon
      rw [score_ok ⟨columns, nrows⟩ vf hm (by simp only [hmb]; omega)] at he
      exact Except.noConfusion he
    · intro h
      rcases eq_or_ne (missing_cols ⟨columns, nrows⟩ vf) [] with hm | hm
      · have hn : nrows < 273 := by
          rcases h with h | h
          · exact absurd hm h
          · exact h
        exact ⟨_, score_err_short ⟨columns, nrows⟩ vf hm (by simpa [hmb])⟩
      · exact ⟨_, score_err_missing ⟨columns, nrows⟩ vf hm⟩
  · intro hm
    exact score_err_missing ⟨columns, nrows⟩ vf hm
  · intro hm hn
    exact score_err_short ⟨columns, nrows⟩ vf hm (by simpa [hmb])

/-- C6 witness: a frame with all required columns but 100 rows errors with
the insufficient-data error, and a frame missing `rsi_14` errors naming
exactly that column. -/
theorem C6_score_validation_witness :
    score ⟨["close", "high", "low", "rsi_14", "atr_14"], 100⟩ false =
      Except.error (ScoreError.InsufficientDataError 100) ∧
    score ⟨["close", "high", "low", "atr_14"], 300⟩ false =
      Except.error (ScoreError.MissingColumnsError ["rsi_14"]) := by
  have hm2 : missing_cols ⟨["close", "high", "low", "atr_14"], 300⟩ false =
      ["rsi_14"] := by decide
  constructor
  · exact (C6_score_validation ["close", "high", "low", "rsi_14", "atr_14"]
      100 false).2.2.1 (by decide) (by decide)
  · have h := (C6_score_validation ["close", "high", "low", "atr_14"]
      300 false).2.1 (by rw [hm2]; exact List.cons_ne_nil _ _)
    rw [h, hm2]

/-! ## Backtest engine (`engine.py`, `types.py`)

Dates are embedded as bar indices (ℕ). Python truthiness tests on floats
(`if fill_price:`, `if exit_price:`, `elif pending_buy_stop and
pending_limit:`, `elif take_profit and ...`) are embedded as the value
being present (`some`) and nonzero. -/

/-- Trade status tags. -/
inductive TradeStatus
  | OPEN
  | CLOSED
  deriving DecidableEq, Repr

/-- Trade direction tags (the engine only opens LONG trades). -/
inductive Direction
  | LONG
  | SHORT
  deriving DecidableEq, Repr

/-- `Trade` (types.py): one executed trade with its running fee and P&L
state. -/
structure Trade where
  ticker : String
  entry_date : ℕ
  entry_price : ℚ
  exit_date : Option ℕ := none
  exit_price : Option ℚ := none
  size : ℚ := 0
  direction : Direction := Direction.LONG
  status : TradeStatus := TradeStatus.OPEN
  pnl : ℚ := 0
  pnl_pct : ℚ := 0
  exit_reason : String := ""
  commission : ℚ := 0
  funding_fees : ℚ := 0
  deriving DecidableEq, Repr

/-- `Trade.close`: set the exit fields and realize P&L. The P&L uses the
commission and funding fees stored on the trade at close time. -/
def Trade.close (t : Trade) (exit_date : ℕ) (exit_price : ℚ)
    (reason : String) : Trade :=
  let t := { t with exit_date := some exit_date,
                    exit_price := some exit_price,
                    exit_reason := reason,
                    status := TradeStatus.CLOSED }
  if t.entry_price > 0 then
    let raw_pnl :=
      if t.direction = Direction.SHORT then
        (t.entry_price - exit_price) * t.size
      else (exit_price - t.entry_price) * t.size
    let pnl := raw_pnl - t.commission - t.funding_fees
    let cost_basis := t.entry_price * t.size
    let t := { t with pnl := pnl }
    if cost_basis > 0 then { t with pnl_pct := pnl / cost_basis } else t
  else t

/-- The engine's per-run mutable state: capital, the open trade, the
pending trap order, the exit levels, and the accumulated outputs. -/
structure EngineState where
  current_capital : ℚ
  open_trade : Option Trade := none
  pending_buy_stop : Option ℚ := none
  pending_limit : Option ℚ := none
  stop_loss : Option ℚ := none
  take_profit : Option ℚ := none
  days_in_trade : ℕ := 0
  highest_high_since_entry : ℚ := 0
  trades : List Trade := []
  equity_curve : List (ℕ × ℚ) := []
  deriving DecidableEq, Repr

/-- The state at the start of `BacktestEngine.run`. -/
def init_state (initial_capital : ℚ) : EngineState :=
  { current_capital := initial_capital }

/-- Python float truthiness on an optional price: `None` and `0.0` are
falsy. -/
def truthy : Option ℚ → Bool
  | none => false
  | some v => decide (v ≠ 0)

/-- Python `int()` on a rational: truncation toward zero (the ceiling for
negative values, the floor for nonnegative ones). -/
def int_trunc (q : ℚ) : ℤ := if q < 0 then ⌈q⌉ else ⌊q⌋

/-- The running highest high after folding in this bar's high
(`if high > highest_high_since_entry`). -/
def updated_hh (s : EngineState) (row : Row) : ℚ :=
  if row.high > s.highest_high_since_entry then row.high
  else s.highest_high_since_entry

/-- The stop-loss after the chandelier ratchet on this bar:
max of the previous stop and (highest high − 2·ATR). The `none` branch
mirrors the source's unreachable `else` initializer. -/
def ratcheted_stop (s : EngineState) (row : Row) : ℚ :=
  let chandelier := updated_hh s row - 2 * row.atr_14
  match s.stop_loss with
  | some sl => max sl chandelier
  | none => chandelier

/-- The exit decision for an open trade on this bar, in the source's
priority order: stop-loss, then take-profit (gated on the take-profit
float being truthy), then the 10-day time stop. Returns the tentative
exit price and reason, before the `if exit_price:` truthiness gate. -/
def exit_decision (s : EngineState) (row : Row) : Option (ℚ × String) :=
  let sl := ratcheted_stop s row
  let days := s.days_in_trade + 1
  if row.low < sl then
    some (if row.open < sl then min row.open sl else sl, "STOP_LOSS")
  else
    match s.take_profit with
    | some tp =>
      if tp ≠ 0 ∧ row.high > tp then
        some (if row.open > tp then max row.open tp else tp, "TAKE_PROFIT")
      else if days ≥ 10 then some (row.close, "TIME_STOP")
      else none
    | none =>
      if days ≥ 10 then some (row.close, "TIME_STOP")
      else none

/-- Branch 1 of the per-bar loop (`if open_trade:`): increment days held,
ratchet the stop, accrue funding, and apply the exit decision; a falsy
(zero) exit price leaves the trade open. -/
def manage_open (profile : AssetClass) (date : ℕ) (row : Row)
    (s : EngineState) (ot : Trade) : EngineState :=
  let days := s.days_in_trade + 1
  let hh := updated_hh s row
  let sl := ratcheted_stop s row
  let ot :=
    if funding_rate_daily profile > 0 then
      { ot with funding_fees :=
          ot.funding_fees + ot.entry_price * ot.size * funding_rate_daily profile }
    else ot
  let no_exit : EngineState :=
    { s with open_trade := some ot, days_in_trade := days,
             highest_high_since_entry := hh, stop_loss := some sl }
  match exit_decision s row with
  | some (ep, reason) =>
    if ep ≠ 0 then
      let closed0 := Trade.close ot date ep reason
      let commission :=
        if profile = AssetClass.EQUITY then
          max (min_commission profile) (closed0.size * commission_per_share profile)
        else 0
      let closed := { closed0 with commission := commission }
      { s with current_capital := s.current_capital + closed.pnl,
               trades := s.trades ++ [closed],
               open_trade := none, stop_loss := none, take_profit := none,
               days_in_trade := 0, highest_high_since_entry := hh }
    else no_exit
  | none => no_exit

/-- The position-size computation on a fill: min of the risk-based size
(2% of capital over 2·ATR, zero when 2·ATR ≤ 0) and the capital-cap size
(15% of capital over the fill price, zero when the fill price ≤ 0),
truncated toward zero (`int()`) for EQUITY. -/
def position_size (profile : AssetClass) (capital fill_price atr : ℚ) : ℚ :=
  let risk_per_share := 2 * atr
  let max_risk_amount := capital * (2/100)
  let size_risk := if risk_per_share > 0 then max_risk_amount / risk_per_share else 0
  let max_capital_alloc := capital * (15/100)
  let size_cap := if fill_price > 0 then max_capital_alloc / fill_price else 0
  let size := min size_risk size_cap
  if profile = AssetClass.EQUITY then ((int_trunc size : ℤ) : ℚ) else size

/-- Branch 2 of the per-bar loop (`elif pending_buy_stop and
pending_limit:`): run the entry fill check; on a truthy fill with a
positive size, open the trade and set its exit levels; the pending order
is discarded in every case. -/
def handle_pending (profile : AssetClass) (ticker : String) (date : ℕ)
    (row : Row) (s : EngineState) (bs lim : ℚ) : EngineState :=
  let s' :=
    match check_entry row bs lim with
    | some fill_price =>
      if fill_price ≠ 0 then
        let size := position_size profile s.current_capital fill_price row.atr_14
        if size > 0 then
          let commission :=
            if profile = AssetClass.EQUITY then
              max (min_commission profile) (size * commission_per_share profile)
            else 0
          let ot : Trade :=
            { ticker := ticker, entry_date := date, entry_price := fill_price,
              size := size, commission := commission }
          let atr := row.atr_14
          let adx := row.adx_14
          let hh := if row.high > fill_price then row.high else fill_price
          let sl := fill_price - 2 * atr
          let tp_multiple := max (5/2) (min (9/2) (2 + adx / 30))
          let tp := fill_price + tp_multiple * atr
          { s with open_trade := some ot, stop_loss := some sl,
                   take_profit := some tp, days_in_trade := 0,
                   highest_high_since_entry := hh }
        else s
      else s
    | none => s
  { s' with pending_buy_stop := none, pending_limit := none }

/-- Branches 1–2 of the per-bar loop: manage the open trade if there is
one (`if open_trade:`), else handle the pending order if both its floats
are truthy (`elif pending_buy_stop and pending_limit:`), else leave the
state unchanged. -/
def phase_open_or_pending (profile : AssetClass) (ticker : String)
    (date : ℕ) (row : Row) (s : EngineState) : EngineState :=
  match s.open_trade with
  | some ot => manage_open profile date row s ot
  | none =>
    match s.pending_buy_stop, s.pending_limit with
    | some bs, some lim =>
      if bs ≠ 0 ∧ lim ≠ 0 then
        handle_pending profile ticker date row s bs lim
      else s
    | _, _ => s

/-- One iteration of `BacktestEngine.run`'s bar loop: branch 1
(open trade) or branch 2 (pending order), then the new-signal step
(gated only on no trade being open and the signal column existing), then
the mark-to-market equity record. -/
def run_step (profile : AssetClass) (has_signal : Bool) (ticker : String)
    (date : ℕ) (row : Row) (s : EngineState) : EngineState :=
  let s1 := phase_open_or_pending profile ticker date row s
  let s2 :=
    if s1.open_trade = none ∧ has_signal = true ∧
        row.composite_signal = 1 ∧ row.adx_14 > 20 then
      let levels := calculate_trap_levels row
      { s1 with pending_buy_stop := some levels.1,
                pending_limit := some levels.2 }
    else s1
  let daily_equity :=
    s2.current_capital +
      match s2.open_trade with
      | some ot => (row.close - ot.entry_price) * ot.size
      | none => 0
  { s2 with equity_curve := s2.equity_curve ++ [(date, daily_equity)] }

/-- The bar loop over index-numbered rows. -/
def run_bars (profile : AssetClass) (has_signal : Bool) (ticker : String)
    (rows : List (ℕ × Row)) (s : EngineState) : EngineState :=
  rows.foldl (fun st p => run_step profile has_signal ticker p.1 p.2 st) s

/-- `BacktestResult` (types.py): trades, equity curve, and aggregate
fields with their dataclass defaults. The profit factor is `Option ℚ`
with `none` embedding `float('inf')`. The equity curve holds the per-bar
equity values; the drawdown column derived from them in `run` is not
needed by any claim. -/
structure BacktestResult where
  ticker : String
  trades : List Trade := []
  equity_curve : List (ℕ × ℚ) := []
  final_equity : ℚ := 0
  total_trades : ℕ := 0
  win_rate : ℚ := 0
  profit_factor : Option ℚ := some 0
  max_drawdown_pct : ℚ := 0
  sharpe : ℚ := 0
  annualized_return : ℚ := 0
  deriving DecidableEq, Repr

/-- `BacktestResult.calculate_stats`: with no trades, set final equity to
the initial capital and return; otherwise compute trade aggregates (and
leave `final_equity` untouched). -/
def calculate_stats (r : BacktestResult) (initial_capital : ℚ) :
    BacktestResult :=
  if r.trades = [] then { r with final_equity := initial_capital }
  else
    let closed := r.trades.filter (fun t => t.status = TradeStatus.CLOSED)
    let total := closed.length
    let r := { r with total_trades := total }
    if total > 0 then
      let wins := closed.filter (fun t => t.pnl > 0)
      let losses := closed.filter (fun t => t.pnl ≤ 0)
      let gross_profit := (wins.map Trade.pnl).sum
      let gross_loss := |(losses.map Trade.pnl).sum|
      let pf : Option ℚ :=
        if gross_loss > 0 then some (gross_profit / gross_loss)
        else if gross_profit > 0 then none
        else some 0
      { r with win_rate := (wins.length : ℚ) / (total : ℚ),
               profit_factor := pf }
    else r

/-- `BacktestEngine.run`: fold the per-bar step over the indexed rows,
assemble the result, and compute its aggregate statistics. -/
def run (profile : AssetClass) (initial_capital : ℚ) (ticker : String)
    (has_signal : Bool) (data : List Row) : BacktestResult :=
  let final := run_bars profile has_signal ticker data.enum
    (init_state initial_capital)
  let result : BacktestResult :=
    { ticker := ticker, trades := final.trades,
      equity_curve := final.equity_curve }
  calculate_stats result initial_capital

/-! ## Engine claims -/

/-- Profile-class disequality, in rewrite form for evaluation proofs. -/
theorem INDEX_ne_EQUITY : (AssetClass.INDEX = AssetClass.EQUITY) = False := by
  simp only [reduceCtorEq]

/-- Direction disequality, in rewrite form for evaluation proofs. -/
theorem LONG_ne_SHORT : (Direction.LONG = Direction.SHORT) = False := by
  simp only [reduceCtorEq]

/-- Profile-class disequality, in rewrite form for evaluation proofs. -/
theorem INDEX_ne_COMMODITY :
    (AssetClass.INDEX = AssetClass.COMMODITY) = False := by
  simp only [reduceCtorEq]

/-- Profile-class disequality, in rewrite form for evaluation proofs. -/
theorem EQUITY_ne_COMMODITY :
    (AssetClass.EQUITY = AssetClass.COMMODITY) = False := by
  simp only [reduceCtorEq]

/-- C2 counterexample, bar 0: BUY signal with ADX 25 places a pending
order. -/
def c2Bar0 : Row :=
  { «open» := 99, high := 100, low := 98, close := 100,
    atr_14 := 1, adx_14 := 25, composite_signal := 1 }

/-- C2 counterexample, bar 1: the bar's high (90) stays below the pending
buy-stop (100.02), so the order expires unfilled; the bar also carries a
BUY signal with ADX 25. -/
def c2Bar1 : Row :=
  { «open» := 89, high := 90, low := 88, close := 89,
    atr_14 := 1, adx_14 := 25, composite_signal := 1 }

/-- The engine state after bar 0 of the C2 counterexample: a pending
order is outstanding (the run is in the Pending state, not Flat). -/
def c2S1 : EngineState :=
  { current_capital := 10000,
    pending_buy_stop := some (5001/50),
    pending_limit := some (10007/100),
    equity_curve := [(0, 10000)] }

/-- C2 (counterexample): on bar 1 the run is in the Pending state (a
pending order from bar 0 is outstanding, so not Flat); the order expires
unfilled on bar 1, and the engine nevertheless places a new pending order
(buy-stop 90.02, distinct from the expired 100.02) on that same bar —
the signal step checks only that no trade is open, not that the bar
began Flat. -/
theorem C2_counterexample :
    run_step AssetClass.INDEX true "T" 0 c2Bar0 (init_state 10000) = c2S1 ∧
    c2S1.open_trade = none ∧
    c2S1.pending_buy_stop = some (5001/50) ∧
    (run_step AssetClass.INDEX true "T" 1 c2Bar1 c2S1).pending_buy_stop =
      some (4501/50) ∧
    ((4501 : ℚ)/50) ≠ ((5001 : ℚ)/50) := by
  refine ⟨?_, rfl, rfl, ?_, by norm_num⟩
  · norm_num [run_step, phase_open_or_pending, manage_open, handle_pending,
      check_entry, position_size, int_trunc, updated_hh, ratcheted_stop,
      exit_decision, calculate_trap_levels, init_state, c2Bar0, c2S1,
      commission_per_share, min_commission, funding_rate_daily]
  · norm_num [run_step, phase_open_or_pending, manage_open, handle_pending,
      check_entry, position_size, int_trunc, updated_hh, ratcheted_stop,
      exit_decision, calculate_trap_levels, c2Bar1, c2S1,
      commission_per_share, min_commission, funding_rate_daily]

/-- C2 (amended): a new pending order is placed on a bar if and only if,
after that bar's open-trade and pending-order handling, no trade is open,
the signal column exists, the bar's driving signal equals 1 and its ADX
exceeds 20 — the engine does not require the bar to have started in the
Flat state, so placement can occur on the same bar on which an unfilled
pending order expires or an open trade exits. -/
theorem C2_order_placement (profile : AssetClass) (hs : Bool)
    (ticker : String) (date : ℕ) (row : Row) (s : EngineState) :
    (run_step profile hs ticker date row s).pending_buy_stop =
      (if (phase_open_or_pending profile ticker date row s).open_trade = none ∧
          hs = true ∧ row.composite_signal = 1 ∧ row.adx_14 > 20
        then some (calculate_trap_levels row).1
        else (phase_open_or_pending profile ticker date row s).pending_buy_stop) ∧
    (run_step profile hs ticker date row s).pending_limit =
      (if (phase_open_or_pending profile ticker date row s).open_trade = none ∧
          hs = true ∧ row.composite_signal = 1 ∧ row.adx_14 > 20
        then some (calculate_trap_levels row).2
        else (phase_open_or_pending profile ticker date row s).pending_limit) := by
  simp only [run_step]
  split_ifs <;> exact ⟨rfl, rfl⟩

/-- C9: with a live stop-loss value, the stop after this bar's chandelier
ratchet is at least its previous value, and whenever the trade remains
open after the bar, the stored stop-loss is exactly the ratcheted value —
the stop is never lowered. -/
theorem C9_stop_monotone (profile : AssetClass) (date : ℕ) (row : Row)
    (s : EngineState) (ot : Trade) (sl0 : ℚ)
    (hsl : s.stop_loss = some sl0) :
    sl0 ≤ ratcheted_stop s row ∧
    (∀ t, (manage_open profile date row s ot).open_trade = some t →
      (manage_open profile date row s ot).stop_loss =
        some (ratcheted_stop s row)) := by
  constructor
  · simp only [ratcheted_stop, hsl]
    exact le_max_left _ _
  · intro t ht
    simp only [manage_open] at ht ⊢
    rcases hde : exit_decision s row with _ | ⟨ep, reason⟩
    · simp only [hde]
    · simp only [hde] at ht ⊢
      by_cases hep : ep ≠ 0
      · rw [if_pos hep] at ht
        simp at ht
      · rw [if_neg hep]

/-- C9 witness row. -/
def c9Row : Row :=
  { «open» := 12, high := 20, low := 17, close := 18,
    atr_14 := 2, adx_14 := 25, composite_signal := 0 }

/-- C9 witness trade. -/
def c9Trade : Trade :=
  { ticker := "T", entry_date := 0, entry_price := 10, size := 1 }

/-- C9 witness state: an open trade with stop 5 and highest high 10. -/
def c9State : EngineState :=
  { current_capital := 1000,
    open_trade := some c9Trade,
    stop_loss := some 5, take_profit := some 1000, days_in_trade := 2,
    highest_high_since_entry := 10 }

/-- C9 witness: a state with stop-loss 5, highest high 10 and a bar with
high 20, ATR 2 ratchets the stop to 16 ≥ 5, and the trade (no exit
triggered) remains open with exactly that stop. -/
theorem C9_stop_monotone_witness :
    (5 : ℚ) ≤ ratcheted_stop c9State c9Row ∧
    (manage_open AssetClass.INDEX 7 c9Row c9State c9Trade).stop_loss =
      some (ratcheted_stop c9State c9Row) := by
  have h := C9_stop_monotone AssetClass.INDEX 7 c9Row c9State c9Trade 5 rfl
  have hf : funding_rate_daily AssetClass.INDEX = 0 := rfl
  have hopen : (manage_open AssetClass.INDEX 7 c9Row c9State c9Trade).open_trade
      = some c9Trade := by
    norm_num [manage_open, exit_decision, ratcheted_stop, updated_hh,
      c9State, c9Row, c9Trade, hf]
  exact ⟨h.1, h.2 c9Trade hopen⟩

/-- C10: `calculate_stats` assigns `final_equity` only in the
empty-trade-list branch (setting it to the initial capital) and leaves it
untouched otherwise; since `run` constructs its result with the dataclass
default `final_equity = 0`, every run whose trade list is non-empty
returns `final_equity = 0` regardless of realized P&L. -/
theorem C10_final_equity (r : BacktestResult) (cap : ℚ)
    (profile : AssetClass) (icap : ℚ) (ticker : String) (hs : Bool)
    (data : List Row) :
    ((calculate_stats r cap).final_equity =
      if r.trades = [] then cap else r.final_equity) ∧
    ((run profile icap ticker hs data).trades ≠ [] →
      (run profile icap ticker hs data).final_equity = 0) := by
  have hfe : ∀ (r' : BacktestResult) (c : ℚ),
      (calculate_stats r' c).final_equity =
        if r'.trades = [] then c else r'.final_equity := by
    intro r' c
    simp only [calculate_stats]
    split_ifs with h1 h2 <;> rfl
  have htr : ∀ (r' : BacktestResult) (c : ℚ),
      (calculate_stats r' c).trades = r'.trades := by
    intro r' c
    simp only [calculate_stats]
    split_ifs with h1 h2 <;> rfl
  refine ⟨hfe r cap, ?_⟩
  intro hne
  simp only [run] at hne ⊢
  rw [hfe, if_neg (by rw [htr] at hne; exact hne)]

/-- C10 witness bars: a BUY-signal bar, a fill bar, and a stop-loss exit
bar, yielding a run with one closed trade. -/
def c10Bar0 : Row :=
  { «open» := 99, high := 100, low := 98, close := 100,
    atr_14 := 5, adx_14 := 25, composite_signal := 1 }

/-- C10 witness, bar 1 (fill at 100.1). -/
def c10Bar1 : Row :=
  { «open» := 100, high := 101, low := 99, close := 100,
    atr_14 := 5, adx_14 := 25, composite_signal := 0 }

/-- C10 witness, bar 2 (low 89 breaches the ratcheted stop 91). -/
def c10Bar2 : Row :=
  { «open» := 95, high := 100, low := 89, close := 96,
    atr_14 := 5, adx_14 := 25, composite_signal := 0 }

/-- The closed trade produced by the C10 witness run. -/
def c10Trade : Trade :=
  { ticker := "T", entry_date := 1, entry_price := 1001/10,
    exit_date := some 2, exit_price := some 91, size := 15000/1001,
    direction := Direction.LONG, status := TradeStatus.CLOSED,
    pnl := -1500/11, pnl_pct := -1/11, exit_reason := "STOP_LOSS",
    commission := 0, funding_fees := 0 }

/-- The open trade of the C10 witness run after the fill on bar 1. -/
def c10OpenTrade : Trade :=
  { ticker := "T", entry_date := 1, entry_price := 1001/10,
    size := 15000/1001 }

/-- The C10 witness state after bar 0 (pending order outstanding). -/
def c10S1 : EngineState :=
  { current_capital := 10000, pending_buy_stop := some (1001/10),
    pending_limit := some (2007/20), equity_curve := [(0, 10000)] }

/-- The C10 witness state after bar 1 (trade open). -/
def c10S2 : EngineState :=
  { current_capital := 10000,
    open_trade := some c10OpenTrade,
    stop_loss := some (901/10), take_profit := some (1714/15),
    highest_high_since_entry := 101,
    equity_curve := [(0, 10000), (1, 10008500/1001)] }

/-- The C10 witness state after bar 2 (trade stop-exited). -/
def c10S3 : EngineState :=
  { current_capital := 108500/11, highest_high_since_entry := 101,
    trades := [c10Trade],
    equity_curve := [(0, 10000), (1, 10008500/1001), (2, 108500/11)] }

/-- C10 witness: a concrete three-bar run that opens and stop-exits one
trade has a non-empty trade list, and its result's final equity is 0
(not the initial 10000, nor 10000 + P&L). -/
theorem C10_final_equity_witness :
    (run AssetClass.INDEX 10000 "T" true [c10Bar0, c10Bar1, c10Bar2]).trades =
      [c10Trade] ∧
    (run AssetClass.INDEX 10000 "T" true [c10Bar0, c10Bar1, c10Bar2]).final_equity
      = 0 := by
  have h1 : run_step AssetClass.INDEX true "T" 0 c10Bar0 (init_state 10000) =
      c10S1 := by
    norm_num [INDEX_ne_EQUITY, INDEX_ne_COMMODITY, LONG_ne_SHORT, run_step,
      phase_open_or_pending, manage_open, handle_pending, check_entry,
      position_size, int_trunc, updated_hh, ratcheted_stop, exit_decision,
      calculate_trap_levels, init_state, c10Bar0, c10S1,
      commission_per_share, min_commission, funding_rate_daily]
  have h2 : run_step AssetClass.INDEX true "T" 1 c10Bar1 c10S1 = c10S2 := by
    norm_num [INDEX_ne_EQUITY, INDEX_ne_COMMODITY, LONG_ne_SHORT, run_step,
      phase_open_or_pending, manage_open, handle_pending, check_entry,
      position_size, int_trunc, updated_hh, ratcheted_stop, exit_decision,
      calculate_trap_levels, c10Bar1, c10S1, c10S2,
      c10OpenTrade, commission_per_share, min_commission, funding_rate_daily]
  have h3 : run_step AssetClass.INDEX true "T" 2 c10Bar2 c10S2 = c10S3 := by
    norm_num [INDEX_ne_EQUITY, INDEX_ne_COMMODITY, LONG_ne_SHORT, run_step,
      phase_open_or_pending, manage_open, handle_pending, check_entry,
      position_size, int_trunc, updated_hh, ratcheted_stop, exit_decision,
      calculate_trap_levels, c10Bar2, c10S2, c10S3,
      c10OpenTrade, c10Trade, Trade.close,
      commission_per_share, min_commission, funding_rate_daily]
  have hrun : run AssetClass.INDEX 10000 "T" true [c10Bar0, c10Bar1, c10Bar2] =
      calculate_stats
        { ticker := "T", trades := [c10Trade],
          equity_curve := [(0, 10000), (1, 10008500/1001), (2, 108500/11)] }
        10000 := by
    simp only [run, run_bars, List.enum, List.foldl, List.enumFrom]
    rw [h1, h2, h3]
    rfl
  constructor
  · rw [hrun]
    norm_num [calculate_stats, c10Trade]
  · rw [hrun]
    exact (C10_final_equity
      { ticker := "T", trades := [c10Trade],
        equity_curve := [(0, 10000), (1, 10008500/1001), (2, 108500/11)] }
      10000 AssetClass.INDEX 10000 "T" true []).1.trans
      (by norm_num)

/-- Exit fields set by `Trade.close` are independent of the P&L branches. -/
theorem close_exit_fields (t : Trade) (d : ℕ) (p : ℚ) (r : String) :
    (Trade.close t d p r).exit_reason = r ∧
    (Trade.close t d p r).exit_price = some p ∧
    (Trade.close t d p r).status = TradeStatus.CLOSED := by
  simp only [Trade.close]
  split_ifs <;> simp

/-- C3 (amended): for every bar on which a trade is open (with a live
take-profit value), exits are checked in priority order — stop-loss at
min(open, stop) on a gap down else at the stop; then take-profit (when
the stored take-profit float is nonzero) at max(open, take-profit) on a
gap up else at the take-profit; then the 10-day time stop at the close —
and in each case the exit takes effect only when the computed exit price
is nonzero: the engine's `if exit_price:` truthiness test treats a zero
exit price as no exit, leaving the trade open; with no triggered exit the
trade remains open. -/
theorem C3_exit_priority (profile : AssetClass) (date : ℕ) (row : Row)
    (s : EngineState) (ot : Trade) (tp : ℚ)
    (htp : s.take_profit = some tp) :
    (row.low < ratcheted_stop s row →
      (if row.open < ratcheted_stop s row
        then min row.open (ratcheted_stop s row)
        else ratcheted_stop s row) ≠ 0 →
      (manage_open profile date row s ot).open_trade = none ∧
      ∃ t, (manage_open profile date row s ot).trades = s.trades ++ [t] ∧
        t.exit_reason = "STOP_LOSS" ∧
        t.exit_price = some (if row.open < ratcheted_stop s row
          then min row.open (ratcheted_stop s row)
          else ratcheted_stop s row) ∧
        t.status = TradeStatus.CLOSED) ∧
    (¬ row.low < ratcheted_stop s row → tp ≠ 0 → row.high > tp →
      (if row.open > tp then max row.open tp else tp) ≠ 0 →
      (manage_open profile date row s ot).open_trade = none ∧
      ∃ t, (manage_open profile date row s ot).trades = s.trades ++ [t] ∧
        t.exit_reason = "TAKE_PROFIT" ∧
        t.exit_price = some (if row.open > tp then max row.open tp else tp) ∧
        t.status = TradeStatus.CLOSED) ∧
    (¬ row.low < ratcheted_stop s row → ¬ (tp ≠ 0 ∧ row.high > tp) →
      10 ≤ s.days_in_trade + 1 → row.close ≠ 0 →
      (manage_open profile date row s ot).open_trade = none ∧
      ∃ t, (manage_open profile date row s ot).trades = s.trades ++ [t] ∧
        t.exit_reason = "TIME_STOP" ∧
        t.exit_price = some row.close ∧
        t.status = TradeStatus.CLOSED) ∧
    (¬ row.low < ratcheted_stop s row → ¬ (tp ≠ 0 ∧ row.high > tp) →
      s.days_in_trade + 1 < 10 →
      (manage_open profile date row s ot).open_trade.isSome = true ∧
      (manage_open profile date row s ot).trades = s.trades) := by
  have hexit : ∀ (ep : ℚ) (reason : String),
      exit_decision s row = some (ep, reason) → ep ≠ 0 →
      (manage_open profile date row s ot).open_trade = none ∧
      ∃ t, (manage_open profile date row s ot).trades = s.trades ++ [t] ∧
        t.exit_reason = reason ∧ t.exit_price = some ep ∧
        t.status = TradeStatus.CLOSED := by
    intro ep reason hde hep
    refine ⟨?_, ?_⟩
    · simp only [manage_open, hde, if_pos hep]
    · simp only [manage_open, hde, if_pos hep]
      refine ⟨_, rfl, ?_, ?_, ?_⟩ <;>
        simp [close_exit_fields]
  refine ⟨?_, ?_, ?_, ?_⟩
  · intro hlow hep
    refine hexit _ _ ?_ hep
    simp only [exit_decision]
    rw [if_pos hlow]
  · intro hnl htp0 hhigh hep
    refine hexit _ _ ?_ hep
    simp only [exit_decision, htp]
    rw [if_neg hnl, if_pos ⟨htp0, hhigh⟩]
  · intro hnl hntp hdays hcl
    refine hexit _ _ ?_ hcl
    simp only [exit_decision, htp]
    rw [if_neg hnl, if_neg hntp, if_pos hdays]
  · intro hnl hntp hdays
    have hde : exit_decision s row = none := by
      simp only [exit_decision, htp]
      rw [if_neg hnl, if_neg hntp, if_neg (by omega)]
    simp [manage_open, hde]

/-- C3 counterexample, bar 0: BUY signal, ADX 25, high 100, ATR 100
(trap order at buy-stop 102, limit 107). -/
def c3Bar0 : Row :=
  { «open» := 99, high := 100, low := 98, close := 100,
    atr_14 := 100, adx_14 := 25, composite_signal := 1 }

/-- C3 counterexample, bar 1: fill at 102 with ATR 51, so the initial
stop-loss is 102 − 2·51 = 0. -/
def c3Bar1 : Row :=
  { «open» := 102, high := 103, low := 101, close := 102,
    atr_14 := 51, adx_14 := 0, composite_signal := 0 }

/-- C3 counterexample, bar 2: ATR 51.5 keeps the ratcheted stop at 0 and
the low −1 breaches it. -/
def c3Bar2 : Row :=
  { «open» := 95, high := 100, low := -1, close := 96,
    atr_14 := 103/2, adx_14 := 0, composite_signal := 0 }

/-- The C3 trade opened on bar 1. -/
def c3OpenTrade : Trade :=
  { ticker := "T", entry_date := 1, entry_price := 102, size := 100/51 }

/-- The engine state after bars 0–1 of the C3 counterexample: an open
trade whose stop-loss is exactly 0. -/
def c3S2 : EngineState :=
  { current_capital := 10000,
    open_trade := some c3OpenTrade,
    stop_loss := some 0, take_profit := some (459/2),
    highest_high_since_entry := 103,
    equity_curve := [(0, 10000), (1, 10000)] }

/-- C3 (counterexample): in a reachable state (after two bars of a real
run) the open trade's ratcheted stop-loss is exactly 0 and bar 2's low
(−1) is below it, yet the engine does not exit the trade: the computed
exit price 0 is falsy in Python (`if exit_price:`), so the bar ends with
the trade still open and no trade appended — contradicting the claim
that a bar low below the stop always exits with STOP_LOSS. -/
theorem C3_counterexample :
    run_bars AssetClass.INDEX true "T" [(0, c3Bar0), (1, c3Bar1)]
      (init_state 10000) = c3S2 ∧
    c3S2.open_trade.isSome = true ∧
    ratcheted_stop c3S2 c3Bar2 = 0 ∧
    c3Bar2.low < ratcheted_stop c3S2 c3Bar2 ∧
    (run_step AssetClass.INDEX true "T" 2 c3Bar2 c3S2).open_trade.isSome
      = true ∧
    (run_step AssetClass.INDEX true "T" 2 c3Bar2 c3S2).trades = [] := by
  have h1 : run_step AssetClass.INDEX true "T" 0 c3Bar0 (init_state 10000) =
      { current_capital := 10000, pending_buy_stop := some 102,
        pending_limit := some 107, equity_curve := [(0, 10000)] } := by
    norm_num [INDEX_ne_EQUITY, INDEX_ne_COMMODITY, LONG_ne_SHORT, run_step,
      phase_open_or_pending, manage_open, handle_pending, check_entry,
      position_size, int_trunc, updated_hh, ratcheted_stop, exit_decision,
      calculate_trap_levels, init_state, c3Bar0,
      commission_per_share, min_commission, funding_rate_daily]
  have h2 : run_step AssetClass.INDEX true "T" 1 c3Bar1
      { current_capital := 10000, pending_buy_stop := some 102,
        pending_limit := some 107, equity_curve := [(0, 10000)] } = c3S2 := by
    norm_num [INDEX_ne_EQUITY, INDEX_ne_COMMODITY, LONG_ne_SHORT, run_step,
      phase_open_or_pending, manage_open, handle_pending, check_entry,
      position_size, int_trunc, updated_hh, ratcheted_stop, exit_decision,
      calculate_trap_levels, c3Bar1, c3S2, c3OpenTrade,
      commission_per_share, min_commission, funding_rate_daily]
  have hs : ratcheted_stop c3S2 c3Bar2 = 0 := by
    norm_num [ratcheted_stop, updated_hh, c3S2, c3Bar2]
  have h3 : (run_step AssetClass.INDEX true "T" 2 c3Bar2 c3S2).open_trade.isSome
      = true ∧ (run_step AssetClass.INDEX true "T" 2 c3Bar2 c3S2).trades = [] := by
    constructor <;>
      norm_num [INDEX_ne_EQUITY, INDEX_ne_COMMODITY, LONG_ne_SHORT, run_step,
        phase_open_or_pending, manage_open, handle_pending, check_entry,
        position_size, int_trunc, updated_hh, ratcheted_stop, exit_decision,
        calculate_trap_levels, c3Bar2, c3S2, c3OpenTrade,
        commission_per_share, min_commission, funding_rate_daily]
  refine ⟨?_, rfl, hs, ?_, h3.1, h3.2⟩
  · simp only [run_bars, List.foldl]
    rw [h1, h2]
  · rw [hs]
    norm_num [c3Bar2]

/-- C3 witness row: a quiet 10th held bar (no stop or take-profit
breach), close 11. -/
def c3wRow : Row :=
  { «open» := 10, high := 21/2, low := 9, close := 11,
    atr_14 := 1, adx_14 := 0, composite_signal := 0 }

/-- C3 witness trade. -/
def c3wTrade : Trade :=
  { ticker := "T", entry_date := 0, entry_price := 10, size := 1 }

/-- C3 witness state: an open trade on its 10th held bar. -/
def c3wState : EngineState :=
  { current_capital := 1000,
    open_trade := some c3wTrade,
    stop_loss := some 1, take_profit := some 1000, days_in_trade := 9,
    highest_high_since_entry := 10 }

/-- C3 witness: the amended theorem applied to a concrete 10th held bar
with no stop or take-profit breach — the trade exits with TIME_STOP at
that bar's close. -/
theorem C3_exit_priority_witness :
    (manage_open AssetClass.INDEX 9 c3wRow c3wState c3wTrade).open_trade
      = none ∧
    ∃ t, (manage_open AssetClass.INDEX 9 c3wRow c3wState c3wTrade).trades =
        c3wState.trades ++ [t] ∧
      t.exit_reason = "TIME_STOP" ∧ t.exit_price = some c3wRow.close ∧
      t.status = TradeStatus.CLOSED := by
  have h := C3_exit_priority AssetClass.INDEX 9 c3wRow c3wState c3wTrade
    1000 rfl
  exact h.2.2.1
    (by norm_num [ratcheted_stop, updated_hh, c3wState, c3wRow])
    (by norm_num [c3wRow])
    (by norm_num [c3wState])
    (by norm_num [c3wRow])

/-- The trade opened on a fill: entry at the fill price with the computed
size and the EQUITY entry commission (other fields at their dataclass
defaults). -/
def opened_trade (profile : AssetClass) (ticker : String) (date : ℕ)
    (fill_price size : ℚ) : Trade :=
  { ticker := ticker, entry_date := date, entry_price := fill_price,
    size := size,
    commission :=
      if profile = AssetClass.EQUITY then
        max (min_commission profile) (size * commission_per_share profile)
      else 0 }

/-- The position size exactly as claim C4 words it, for comparison with
the source's `position_size`: min of the risk-based and capital-cap
terms with no zero-guards, floored to a whole unit for EQUITY. -/
def claim_size (profile : AssetClass) (capital fill_price atr : ℚ) : ℚ :=
  let m := min (capital * (2/100) / (2 * atr)) (capital * (15/100) / fill_price)
  if profile = AssetClass.EQUITY then ((⌊m⌋ : ℤ) : ℚ) else m

/-- C4 (counterexample): for an EQUITY profile with capital −25, fill
price 10 and ATR 1 the code's size is `int(min(−1/4, −3/8)) = int(−3/8)
= 0` (Python `int()` truncates toward zero), while the claim's "min
floored to a whole unit" is ⌊−3/8⌋ = −1 — the two differ, so the
position size is not in general the floor of the min. -/
theorem C4_counterexample :
    position_size AssetClass.EQUITY (-25) 10 1 = 0 ∧
    claim_size AssetClass.EQUITY (-25) 10 1 = -1 ∧
    (0 : ℚ) ≠ -1 := by
  refine ⟨?_, ?_, by norm_num⟩
  · norm_num [position_size, int_trunc]
  · have hmin : min ((-25 : ℚ) * (2/100) / (2 * 1)) ((-25 : ℚ) * (15/100) / 10)
        = -(3/8) := by norm_num
    have hfl : ⌊(-(3/8) : ℚ)⌋ = -1 := by
      rw [Int.floor_eq_iff]
      norm_num
    simp only [claim_size, hmin, if_pos rfl, hfl]
    norm_num

/-- C4 (amended): when a pending order fills at a truthy price p with
current capital C, bar ATR a and ADX d, the position size is
min(r, c) — r = 0.02·C/(2·a) when 2·a > 0 and 0 otherwise, c = 0.15·C/p
when p > 0 and 0 otherwise — truncated toward zero to a whole unit for
EQUITY profiles and left fractional otherwise (this coincides with the
claim's floored min whenever C ≥ 0, a > 0 and p > 0); if the size is
positive a trade opens with entry price p, that size, initial stop-loss
p − 2·a and take-profit p + clamp(2 + d/30, 2.5, 4.5)·a; if it is not,
no trade opens; and the pending order is discarded whether or not the
entry check fills. -/
theorem C4_fill_sizing (profile : AssetClass) (ticker : String) (date : ℕ)
    (row : Row) (s : EngineState) (bs lim p : ℚ)
    (hfill : check_entry row bs lim = some p) (hp : p ≠ 0) :
    (0 < position_size profile s.current_capital p row.atr_14 →
      (handle_pending profile ticker date row s bs lim).open_trade =
        some (opened_trade profile ticker date p
          (position_size profile s.current_capital p row.atr_14)) ∧
      (handle_pending profile ticker date row s bs lim).stop_loss =
        some (p - 2 * row.atr_14) ∧
      (handle_pending profile ticker date row s bs lim).take_profit =
        some (p + max (5/2) (min (9/2) (2 + row.adx_14 / 30)) * row.atr_14)) ∧
    (¬ 0 < position_size profile s.current_capital p row.atr_14 →
      (handle_pending profile ticker date row s bs lim).open_trade =
        s.open_trade) ∧
    (∀ bs' lim',
      (handle_pending profile ticker date row s bs' lim').pending_buy_stop =
        none ∧
      (handle_pending profile ticker date row s bs' lim').pending_limit =
        none) ∧
    (∀ (C a pr : ℚ), 0 ≤ C → 0 < a → 0 < pr →
      position_size profile C pr a = claim_size profile C pr a) := by
  refine ⟨?_, ?_, ?_, ?_⟩
  · intro hsz
    simp [handle_pending, hfill, if_pos hp, if_pos hsz, opened_trade]
  · intro hsz
    simp only [handle_pending, hfill, if_pos hp, if_neg hsz]
  · intro bs' lim'
    simp [handle_pending]
  · intro C a pr hC ha hpr
    have h2a : (0 : ℚ) < 2 * a := by linarith
    simp only [position_size, claim_size, if_pos h2a, if_pos hpr]
    have hm : 0 ≤ min (C * (2/100) / (2 * a)) (C * (15/100) / pr) :=
      le_min (div_nonneg (by linarith) (by linarith))
        (div_nonneg (by linarith) (by linarith))
    by_cases heq : profile = AssetClass.EQUITY
    · rw [if_pos heq, if_pos heq]
      congr 1
      simp only [int_trunc, if_neg (not_lt.mpr hm)]
    · rw [if_neg heq, if_neg heq]

/-- C4 witness row: open 100, high 105, ATR 5, ADX 25. -/
def c4Row : Row :=
  { «open» := 100, high := 105, low := 99, close := 101,
    atr_14 := 5, adx_14 := 25, composite_signal := 0 }

/-- C4 witness: the amended theorem applied to a concrete fill at 102 on
an INDEX profile with capital 10000 — size min(20, 1500/102) = 250/17,
stop-loss 92, take-profit 102 + (17/6)·5 = 697/6; the pending order is
discarded. -/
theorem C4_fill_sizing_witness :
    (handle_pending AssetClass.INDEX "T" 3 c4Row (init_state 10000) 102 104).stop_loss = some 92 ∧
    (handle_pending AssetClass.INDEX "T" 3 c4Row (init_state 10000) 102 104).take_profit = some (697/6) ∧
    (handle_pending AssetClass.INDEX "T" 3 c4Row (init_state 10000) 102 104).pending_buy_stop = none := by
  have hfill : check_entry c4Row 102 104 = some 102 := by
    norm_num [check_entry, c4Row]
  have h := C4_fill_sizing AssetClass.INDEX "T" 3 c4Row (init_state 10000)
    102 104 102 hfill (by norm_num)
  have hsz : (0 : ℚ) <
      position_size AssetClass.INDEX 10000 102 c4Row.atr_14 := by
    norm_num [position_size, int_trunc, INDEX_ne_EQUITY, c4Row, init_state]
  have hmain := h.1 (by simpa [init_state] using hsz)
  refine ⟨?_, ?_, (h.2.2.1 102 104).1⟩
  · simpa [init_state] using hmain.2.1.trans (by norm_num [c4Row])
  · simpa [init_state] using hmain.2.2.trans (by norm_num [c4Row])

/-- With the signal column absent and neither an open trade nor a pending
order, one bar step leaves the state unchanged except for appending the
mark-to-market equity, which equals the current capital. -/
theorem run_step_no_signal (profile : AssetClass) (ticker : String)
    (date : ℕ) (row : Row) (s : EngineState)
    (h1 : s.open_trade = none) (h2 : s.pending_buy_stop = none) :
    run_step profile false ticker date row s =
      { s with equity_curve :=
          s.equity_curve ++ [(date, s.current_capital)] } := by
  simp [run_step, phase_open_or_pending, h1, h2]

/-- Folding the bar loop with the signal column absent from a state with
no open trade and no pending order only accumulates a flat equity curve
at the current capital. -/
theorem run_bars_no_signal (profile : AssetClass) (ticker : String)
    (rows : List (ℕ × Row)) (s : EngineState)
    (h1 : s.open_trade = none) (h2 : s.pending_buy_stop = none) :
    run_bars profile false ticker rows s =
      { s with equity_curve :=
          s.equity_curve ++ rows.map (fun p => (p.1, s.current_capital)) } := by
  induction rows generalizing s with
  | nil => simp [run_bars]
  | cons hd tl ih =>
    simp only [run_bars, List.foldl] at ih ⊢
    rw [run_step_no_signal profile ticker hd.1 hd.2 s h1 h2,
      ih _ (by simpa using h1) (by simpa using h2)]
    simp

/-- C7: running the engine on a series lacking the driving signal column
never places an order or opens a trade, and returns a result with an
empty trade list whose equity at every bar equals the initial capital
(and whose final-equity statistic is the initial capital, via the
empty-trade-list branch of `calculate_stats`); the embedded run is total,
so no error is raised. -/
theorem C7_missing_signal_column (profile : AssetClass) (cap : ℚ)
    (ticker : String) (data : List Row) :
    (run profile cap ticker false data).trades = [] ∧
    (run profile cap ticker false data).final_equity = cap ∧
    (run profile cap ticker false data).equity_curve =
      data.enum.map (fun p => (p.1, cap)) ∧
    (∀ q ∈ (run profile cap ticker false data).equity_curve, q.2 = cap) ∧
    (run_bars profile false ticker data.enum (init_state cap)).open_trade
      = none ∧
    (run_bars profile false ticker data.enum (init_state cap)).pending_buy_stop
      = none := by
  have hbars := run_bars_no_signal profile ticker data.enum (init_state cap)
    rfl rfl
  have hrun : run profile cap ticker false data =
      calculate_stats
        { ticker := ticker, trades := [],
          equity_curve := data.enum.map (fun p => (p.1, cap)) } cap := by
    simp only [run]
    rw [hbars]
    simp [init_state]
  have hstats : calculate_stats
      { ticker := ticker, trades := [],
        equity_curve := data.enum.map (fun p => (p.1, cap)) } cap =
      { ticker := ticker, trades := [],
        equity_curve := data.enum.map (fun p => (p.1, cap)),
        final_equity := cap } := by
    simp [calculate_stats]
  refine ⟨?_, ?_, ?_, ?_, ?_, ?_⟩
  · rw [hrun, hstats]
  · rw [hrun, hstats]
  · rw [hrun, hstats]
  · rw [hrun, hstats]
    intro q hq
    simp only [List.mem_map] at hq
    obtain ⟨a, _, rfl⟩ := hq
    rfl
  · rw [hbars]
    simp [init_state]
  · rw [hbars]
    simp [init_state]

/-- C7 witness bar: carries a BUY-class signal value and high ADX, which
must be ignored because the signal column is absent. -/
def c7Row : Row :=
  { «open» := 10, high := 11, low := 9, close := 10,
    atr_14 := 1, adx_14 := 30, composite_signal := 1 }

/-- C7 witness: a concrete one-bar run without the signal column yields
no trades, a final equity of 42, and the flat equity curve [(0, 42)]. -/
theorem C7_missing_signal_column_witness :
    (run AssetClass.EQUITY 42 "T" false [c7Row]).trades = [] ∧
    (run AssetClass.EQUITY 42 "T" false [c7Row]).final_equity = 42 ∧
    (run AssetClass.EQUITY 42 "T" false [c7Row]).equity_curve = [(0, 42)] := by
  have h := C7_missing_signal_column AssetClass.EQUITY 42 "T" [c7Row]
  exact ⟨h.1, h.2.1, by rw [h.2.2.1]; rfl⟩

/-! ## Walk-forward splitter (`splitter.py`)

Dates are embedded as integers (e.g. days since an epoch); pandas'
calendar-aware `DateOffset(months=m)` is abstracted as a function
parameter `addMonths`, whose one property used by the claims — adding at
least one month strictly advances a date — is a hypothesis of the
theorem. The `while` loop runs iteration k exactly when every train-end
up to index k is strictly before the last date: the loop is entered
while `current_train_end < max_date` and breaks as soon as the *next*
train-end reaches or exceeds it. -/

/-- `WalkForwardSplitter.__init__` parameters. -/
structure SplitterConfig where
  train_years : ℕ
  test_months : ℕ
  roll_months : ℕ
  min_periods : ℕ

/-- `self.train_months = train_years * 12`. -/
def train_months (cfg : SplitterConfig) : ℕ := cfg.train_years * 12

/-- `current_train_end` at iteration k: the series start plus
`train_months` months, then k roll steps. -/
def train_end (addMonths : ℕ → ℤ → ℤ) (cfg : SplitterConfig) (start : ℤ) :
    ℕ → ℤ
  | 0 => addMonths (train_months cfg) start
  | k + 1 => addMonths cfg.roll_months (train_end addMonths cfg start k)

/-- `test_end` at iteration k: `current_train_end` plus the test months. -/
def test_end (addMonths : ℕ → ℤ → ℤ) (cfg : SplitterConfig) (start : ℤ)
    (k : ℕ) : ℤ :=
  addMonths cfg.test_months (train_end addMonths cfg start k)

/-- The train frame at a train-end: every date strictly before it
(an expanding window from the very beginning of the series). -/
def train_df (dates : List ℤ) (te : ℤ) : List ℤ :=
  dates.filter (fun d => decide (d < te))

/-- The test frame: dates in [train_end, test_end). -/
def test_df (dates : List ℤ) (te tse : ℤ) : List ℤ :=
  dates.filter (fun d => decide (te ≤ d ∧ d < tse))

/-- Iteration k of `split`'s while loop executes iff every train-end up
to k is strictly before the last date (loop guard plus the early break
on the next train-end). -/
def executes (addMonths : ℕ → ℤ → ℤ) (cfg : SplitterConfig)
    (start maxd : ℤ) (k : ℕ) : Prop :=
  ∀ j, j ≤ k → train_end addMonths cfg start j < maxd

/-- `split` yields a pair at iteration k iff the frame is non-empty,
iteration k executes, the test frame is non-empty, and the train frame
meets the minimum row threshold. -/
def splitter_yields (addMonths : ℕ → ℤ → ℤ) (cfg : SplitterConfig)
    (dates : List ℤ) (k : ℕ) : Prop :=
  match dates.min?, dates.max? with
  | some sd, some md =>
    executes addMonths cfg sd md k ∧
    test_df dates (train_end addMonths cfg sd k)
      (test_end addMonths cfg sd k) ≠ [] ∧
    cfg.min_periods ≤ (train_df dates (train_end addMonths cfg sd k)).length
  | _, _ => False

/-- `List.min?` on ℤ returns a member below every member. -/
theorem int_min_spec {xs : List ℤ} {a : ℤ} (h : xs.min? = some a) :
    a ∈ xs ∧ ∀ b ∈ xs, a ≤ b :=
  (@List.min?_eq_some_iff ℤ a _ _ ⟨fun h1 h2 => le_antisymm h1 h2⟩
    (fun x => le_refl x) (fun x y => min_choice x y)
    (fun _ _ _ => le_min_iff)).mp h

/-- Each train-end is at least the start plus one per roll step. -/
theorem train_end_lower (addMonths : ℕ → ℤ → ℤ)
    (hadd : ∀ (m : ℕ) (d : ℤ), 1 ≤ m → d + 1 ≤ addMonths m d)
    (cfg : SplitterConfig) (hty : 1 ≤ cfg.train_years)
    (hroll : 1 ≤ cfg.roll_months) (start : ℤ) :
    ∀ k, start + 1 + k ≤ train_end addMonths cfg start k := by
  intro k
  induction k with
  | zero =>
    have := hadd (train_months cfg) start (by simp only [train_months]; omega)
    simpa [train_end] using this
  | succ k ih =>
    have := hadd cfg.roll_months (train_end addMonths cfg start k) hroll
    simp only [train_end]
    push_cast
    push_cast at ih
    omega

/-- C8: on every date-indexed sorted series (with calendar month-addition
strictly advancing dates, at least one train year and at least one roll
month), every yielded (train, test) pair has a train window starting at
the series' first date, every train date strictly precedes every test
date, the test window is non-empty, the train window has at least
`min_periods` rows, the yielding iteration's train-end is strictly
before the series' last date, and only finitely many iterations yield. -/
theorem C8_walk_forward (addMonths : ℕ → ℤ → ℤ)
    (hadd : ∀ (m : ℕ) (d : ℤ), 1 ≤ m → d + 1 ≤ addMonths m d)
    (cfg : SplitterConfig) (hty : 1 ≤ cfg.train_years)
    (hroll : 1 ≤ cfg.roll_months)
    (dates : List ℤ) (hsorted : dates.Sorted (· < ·)) (k : ℕ)
    (hy : splitter_yields addMonths cfg dates k) :
    ∃ sd md, dates.min? = some sd ∧ dates.max? = some md ∧
      (train_df dates (train_end addMonths cfg sd k)).head? = dates.head? ∧
      (∀ a ∈ train_df dates (train_end addMonths cfg sd k),
       ∀ b ∈ test_df dates (train_end addMonths cfg sd k)
          (test_end addMonths cfg sd k), a < b) ∧
      test_df dates (train_end addMonths cfg sd k)
        (test_end addMonths cfg sd k) ≠ [] ∧
      cfg.min_periods ≤ (train_df dates (train_end addMonths cfg sd k)).length ∧
      train_end addMonths cfg sd k < md ∧
      (∃ K, ∀ j, K ≤ j → ¬ splitter_yields addMonths cfg dates j) := by
  rcases hmin : dates.min? with _ | sd
  · rw [splitter_yields, hmin] at hy
    exact absurd hy (by simp)
  rcases hmax : dates.max? with _ | md
  · rw [splitter_yields, hmin, hmax] at hy
    exact absurd hy (by simp)
  rw [splitter_yields, hmin, hmax] at hy
  obtain ⟨hex, htest, hlen⟩ := hy
  obtain ⟨hsmem, hsle⟩ := int_min_spec hmin
  obtain ⟨d0, tl, hd⟩ := List.exists_cons_of_ne_nil (List.ne_nil_of_mem hsmem)
  subst hd
  have hd0 : sd = d0 := by
    rcases List.mem_cons.mp hsmem with h | h
    · exact h
    · have h1 : d0 < sd := (List.sorted_cons.mp hsorted).1 sd h
      have h2 : sd ≤ d0 := hsle d0 (List.mem_cons_self d0 tl)
      omega
  have hlow := train_end_lower addMonths hadd cfg hty hroll sd
  have hte : sd < train_end addMonths cfg sd k := by
    have := hlow k
    omega
  refine ⟨sd, md, rfl, rfl, ?_, ?_, htest, hlen, hex k le_rfl, ?_⟩
  · simp only [train_df]
    rw [List.filter_cons_of_pos (by simp only [decide_eq_true_eq]; omega)]
    rfl
  · intro a ha b hb
    simp only [train_df, List.mem_filter, decide_eq_true_eq] at ha
    simp only [test_df, List.mem_filter, decide_eq_true_eq] at hb
    exact lt_of_lt_of_le ha.2 hb.2.1
  · refine ⟨(md - sd).toNat, fun j hj hyj => ?_⟩
    rw [splitter_yields, hmin, hmax] at hyj
    have h1 := hyj.1 j le_rfl
    have h2 := hlow j
    have h3 : (md - sd : ℤ) ≤ ((md - sd).toNat : ℤ) := Int.self_le_toNat _
    have h4 : ((md - sd).toNat : ℤ) ≤ (j : ℤ) := by exact_mod_cast hj
    omega

/-- The witness' month-addition: 30 days per month. -/
def c8addM : ℕ → ℤ → ℤ := fun m d => d + 30 * m

/-- The witness' configuration: train 3 years, test 6 months, roll 6
months, no minimum row threshold (the constructor defaults). -/
def c8cfg : SplitterConfig :=
  { train_years := 3, test_months := 6, roll_months := 6, min_periods := 0 }

/-- The witness' date index. -/
def c8dates : List ℤ := [0, 100, 1100, 1200, 1800]

/-- C8 witness: on the concrete sorted series, iteration 0 yields a pair
(train-end 1080, test window [1080, 1260) containing 1100 and 1200); the
theorem gives that its train frame starts at the series' first date and
that only finitely many iterations yield. -/
theorem C8_walk_forward_witness :
    splitter_yields c8addM c8cfg c8dates 0 ∧
    (train_df c8dates (train_end c8addM c8cfg 0 0)).head? = c8dates.head? ∧
    ∃ K, ∀ j, K ≤ j → ¬ splitter_yields c8addM c8cfg c8dates j := by
  have hte0 : train_end c8addM c8cfg 0 0 = 1080 := by
    norm_num [train_end, train_months, c8addM, c8cfg]
  have hy : splitter_yields c8addM c8cfg c8dates 0 := by
    rw [splitter_yields, show c8dates.min? = some 0 by decide,
      show c8dates.max? = some 1800 by decide]
    refine ⟨?_, ?_, ?_⟩
    · intro j hj
      interval_cases j
      rw [hte0]
      norm_num
    · rw [hte0]
      decide
    · simp [c8cfg]
  have h := C8_walk_forward c8addM
    (by intro m d hm; simp only [c8addM]; omega)
    c8cfg (by norm_num [c8cfg]) (by norm_num [c8cfg])
    c8dates (by decide) 0 hy
  obtain ⟨sd, md, hmin, hmax, hhead, _, _, _, _, hfin⟩ := h
  have hsd : sd = 0 := by
    have : c8dates.min? = some 0 := by decide
    rw [this] at hmin
    exact (Option.some_injective ℤ hmin).symm
  rw [hsd] at hhead
  exact ⟨hy, hhead, hfin⟩

end WealthOps
